import Mathlib

/-!
Shallow embedding of `src/app.js` (slapd): a single-pass script that reads
the current on-call assignments from PagerDuty, posts a notification to a
Slack channel, resolves on-call display names to Slack user ids, and
overwrites a Slack user group's membership with the resolved ids.

Network calls are modelled by a `World` record holding the response each
endpoint would return during the run (the script has no state across calls,
and each endpoint is queried with fixed parameters from the configuration,
except `users.info`, which is keyed by the queried user id).  `axios`
failures (transport errors / non-2xx statuses) are `HttpResult.failure`;
a 2xx response with a parsed JSON body is `HttpResult.success`.  JS `throw`
/ `try` / `catch` become `Except` values, with a separate `...Body`
definition for a `try` block whose `catch` handler substitutes a default.
The externally visible mutating calls (`chat.postMessage`,
`usergroups.users.update`) are recorded in a trace of `Call`s.
-/

/-- `oncall.user` object: `{id, summary}`. -/
structure OncallUser where
  id : String
  summary : String
deriving DecidableEq, Repr

/-- `oncall.schedule` object: `{id}`. -/
structure OncallSchedule where
  id : String
deriving DecidableEq, Repr

/-- One record of the `oncalls` array; `user` / `schedule` may be absent
(JS truthiness guard on line 26 of `app.js`). -/
structure Oncall where
  user : Option OncallUser
  schedule : Option OncallSchedule
deriving DecidableEq, Repr

/-- Body of a 2xx PagerDuty `/oncalls` response; the `oncalls` field may be
missing or null (`response.data.oncalls || []`). -/
structure OncallsBody where
  oncalls : Option (List Oncall)
deriving DecidableEq, Repr

/-- Result of one `axios` request: a 2xx response with parsed body, or a
thrown error carrying `error.message`. -/
inductive HttpResult (α : Type) where
  | success (data : α)
  | failure (message : String)
deriving DecidableEq, Repr

/-- A Slack response envelope whose payload the script never reads
(`usergroups.users.update`, `chat.postMessage`). -/
structure SlackEnvelope where
  ok : Bool
  error : String
deriving DecidableEq, Repr

/-- Body of `usergroups.users.list`: `{ok, users: [id...], error?}`;
`users` may be absent (`response.data.users || []`). -/
structure GroupListBody where
  ok : Bool
  error : String
  users : Option (List String)
deriving DecidableEq, Repr

/-- `users.info`'s `user` object (only `real_name` is read). -/
structure UserInfoUser where
  real_name : String
deriving DecidableEq, Repr

/-- Body of `users.info`: `{ok, user: {real_name}, error?}`. -/
structure UserInfoBody where
  ok : Bool
  error : String
  user : Option UserInfoUser
deriving DecidableEq, Repr

/-- A member's `profile` object in `users.list`. -/
structure MemberProfile where
  real_name : String
deriving DecidableEq, Repr

/-- One entry of `users.list`'s `members` array. -/
structure Member where
  id : String
  name : String
  real_name : String
  profile : MemberProfile
deriving DecidableEq, Repr

/-- Body of `users.list`: `{ok, members: [...], error?}`. -/
structure UsersListBody where
  ok : Bool
  error : String
  members : List Member
deriving DecidableEq, Repr

/-- The configuration object read from `config.json`. -/
structure Config where
  pagerdutyApiToken : String
  slackApiToken : String
  slackGroupId : String
  slackChannelId : String
  skipSchedules : List String

/-- The responses the external services return during this run. -/
structure World where
  oncallsResp : HttpResult OncallsBody
  usergroupsListResp : HttpResult GroupListBody
  usersInfoResp : String → HttpResult UserInfoBody
  usersListResp : HttpResult UsersListBody
  updateResp : HttpResult SlackEnvelope
  postMessageResp : HttpResult SlackEnvelope

/-- An externally visible mutating call issued by the script. -/
inductive Call where
  | postMessage (channel : String) (text : String)
  | groupUpdate (usergroup : String) (users : String)
deriving DecidableEq, Repr

/-! ## On-call resolver (`getOnCallUsers`, app.js lines 13-37) -/

/-- JS `Map.set` on an association list: if the key is present, the entry is
updated in place (insertion position kept); otherwise the pair is appended. -/
def mapSet : List (String × String) → String → String → List (String × String)
  | [], k, v => [(k, v)]
  | p :: rest, k, v => if p.1 = k then (k, v) :: rest else p :: mapSet rest k v

/-- The body of the `oncalls.forEach` callback (app.js lines 25-29): skip the
record unless `user` and `schedule` are present and the schedule id is not in
`config.skipSchedules`; otherwise `uniqueUsers.set(user.id, user.summary)`. -/
def oncallStep (skip : List String) (m : List (String × String)) (oc : Oncall) :
    List (String × String) :=
  match oc.user, oc.schedule with
  | some u, some s => if skip.contains s.id then m else mapSet m u.id u.summary
  | _, _ => m

/-- The pure core of `getOnCallUsers`: build the `uniqueUsers` map and return
`Array.from(uniqueUsers.values())`. -/
def onCallUsersOf (skip : List String) (oncalls : List Oncall) : List String :=
  (oncalls.foldl (oncallStep skip) []).map Prod.snd

/-- `getOnCallUsers` (app.js lines 13-37): a thrown `axios` error is wrapped
as `Failed to get on-call users: ...` and rethrown. -/
def getOnCallUsers (cfg : Config) (w : World) : Except String (List String) :=
  match w.oncallsResp with
  | HttpResult.failure msg =>
      Except.error ("Failed to get on-call users: " ++ msg)
  | HttpResult.success body =>
      Except.ok (onCallUsersOf cfg.skipSchedules (body.oncalls.getD []))

/-! ## Current-membership snapshot (`getCurrentGroupMembers`, lines 39-76) -/

/-- The `for (const userId of users)` loop (app.js lines 59-69): one
`users.info` call per id; a thrown `axios` error aborts the loop (and is
caught by the enclosing handler); a response with a false `ok` flag or a
missing `user` object merely skips that id. -/
def collectNames (w : World) : List String → Except String (List String)
  | [] => Except.ok []
  | userId :: rest =>
    match w.usersInfoResp userId with
    | HttpResult.failure msg => Except.error msg
    | HttpResult.success ur =>
      match collectNames w rest with
      | Except.error msg => Except.error msg
      | Except.ok names =>
        if ur.ok then
          match ur.user with
          | some u => Except.ok (u.real_name :: names)
          | none => Except.ok names
        else Except.ok names

/-- The `try` block of `getCurrentGroupMembers` (app.js lines 40-71): list the
group's user ids (a false `ok` flag throws `Failed to get group members: ...`),
then resolve each id to a real name. -/
def getCurrentGroupMembersBody (w : World) : Except String (List String) :=
  match w.usergroupsListResp with
  | HttpResult.failure msg => Except.error msg
  | HttpResult.success r =>
    if r.ok then collectNames w (r.users.getD [])
    else Except.error ("Failed to get group members: " ++ r.error)

/-- `getCurrentGroupMembers` (app.js lines 39-76): the `catch` handler logs
the error and returns `[]` instead of propagating. -/
def getCurrentGroupMembers (w : World) : List String :=
  match getCurrentGroupMembersBody w with
  | Except.ok names => names
  | Except.error _ => []

/-! ## Directory matcher (`getSlackUserIdByName`, lines 78-101) -/

/-- The `members.find` predicate (app.js lines 90-94): exact string equality
of the input name against `real_name`, `name`, or `profile.real_name`. -/
def memberMatches (name : String) (m : Member) : Bool :=
  m.real_name == name || m.name == name || m.profile.real_name == name

/-- The `try` block of `getSlackUserIdByName` (app.js lines 79-96): list the
whole directory (a false `ok` flag throws `Failed to list users: ...`), then
return the id of the first matching member, or `null`. -/
def getSlackUserIdByNameBody (w : World) (name : String) :
    Except String (Option String) :=
  match w.usersListResp with
  | HttpResult.failure msg => Except.error msg
  | HttpResult.success r =>
    if r.ok then Except.ok ((r.members.find? (memberMatches name)).map Member.id)
    else Except.error ("Failed to list users: " ++ r.error)

/-- `getSlackUserIdByName` (app.js lines 78-101): the `catch` handler logs a
warning and returns `null` instead of propagating. -/
def getSlackUserIdByName (w : World) (name : String) : Option String :=
  match getSlackUserIdByNameBody w name with
  | Except.ok v => v
  | Except.error _ => none

/-! ## Group membership updater (`updateGroupMembers`, lines 103-148) -/

/-- `updateGroupMembers` (app.js lines 103-148).  Steps: (1) observational
current-membership snapshot (its own `catch` never throws); (2) resolve each
name via `getSlackUserIdByName`, keeping only resolved ids; (3) if none
resolved, log and return without calling the update endpoint; (4) POST
`usergroups.users.update` with the ids joined by `,` — a thrown `axios` error
is wrapped as `Failed to update group members: ...`; (5) observational new
snapshot.  Returns the trace of mutating calls and the `try`/`catch` outcome. -/
def updateGroupMembers (cfg : Config) (w : World) (users : List String) :
    List Call × Except String Unit :=
  let _currentMembers := getCurrentGroupMembers w
  let slackUserIds := users.filterMap (fun user => getSlackUserIdByName w user)
  if slackUserIds.isEmpty then ([], Except.ok ())
  else
    match w.updateResp with
    | HttpResult.failure msg =>
      ([Call.groupUpdate cfg.slackGroupId (String.intercalate "," slackUserIds)],
       Except.error ("Failed to update group members: " ++ msg))
    | HttpResult.success _ =>
      let _newMembers := getCurrentGroupMembers w
      ([Call.groupUpdate cfg.slackGroupId (String.intercalate "," slackUserIds)],
       Except.ok ())

/-! ## Top-level orchestrator (`updateSlackGroup`, lines 150-177) -/

/-- Text of the `chat.postMessage` notification (app.js line 158). -/
def messageText (users : List String) : String :=
  ":rotating_light: On-Call Update :rotating_light:\nCurrent on-call engineers:\n• "
    ++ String.intercalate "\n• " users

/-- Outcome of one run: the mutating calls issued and the error logged by the
top-level `catch` handler, if any. -/
structure RunOutcome where
  calls : List Call
  loggedError : Option String
deriving DecidableEq, Repr

/-- `updateSlackGroup` (app.js lines 150-177): fetch on-call users; if the
list is nonempty, post the notification and update the group; all errors are
caught, logged as `Failed to update Slack group: ...`, and not rethrown. -/
def updateSlackGroup (cfg : Config) (w : World) : RunOutcome :=
  match getOnCallUsers cfg w with
  | Except.error msg =>
    { calls := [], loggedError := some ("Failed to update Slack group: " ++ msg) }
  | Except.ok users =>
    if users.length > 0 then
      let post := Call.postMessage cfg.slackChannelId (messageText users)
      match w.postMessageResp with
      | HttpResult.failure msg =>
        { calls := [post],
          loggedError := some ("Failed to update Slack group: " ++ msg) }
      | HttpResult.success _ =>
        match updateGroupMembers cfg w users with
        | (calls, Except.ok ()) => { calls := post :: calls, loggedError := none }
        | (calls, Except.error msg) =>
          { calls := post :: calls,
            loggedError := some ("Failed to update Slack group: " ++ msg) }
    else { calls := [], loggedError := none }

/-! ## Association-list lemmas for the `uniqueUsers` map -/

/-- Keys of the association list representing the `uniqueUsers` map. -/
def mapKeys (m : List (String × String)) : List String := m.map Prod.fst

@[simp] theorem mapKeys_nil : mapKeys [] = [] := rfl

@[simp] theorem mapKeys_cons (p : String × String) (m : List (String × String)) :
    mapKeys (p :: m) = p.1 :: mapKeys m := rfl

theorem mapKeys_mapSet (m : List (String × String)) (k v : String) :
    mapKeys (mapSet m k v) =
      if k ∈ mapKeys m then mapKeys m else mapKeys m ++ [k] := by
  induction m with
  | nil => simp [mapSet]
  | cons p rest ih =>
    by_cases h : p.1 = k
    · subst h
      simp [mapSet]
    · rw [show mapSet (p :: rest) k v = p :: mapSet rest k v by simp [mapSet, h]]
      by_cases hk : k ∈ mapKeys rest
      · simp [ih, hk, Ne.symm h]
      · simp [ih, hk, Ne.symm h]

theorem nodup_mapKeys_mapSet (m : List (String × String)) (k v : String)
    (h : (mapKeys m).Nodup) : (mapKeys (mapSet m k v)).Nodup := by
  rw [mapKeys_mapSet]
  by_cases hk : k ∈ mapKeys m
  · simpa [hk] using h
  · simp [hk, List.nodup_append, h]

theorem lookup_cons_pair (a : String) (p : String × String)
    (rest : List (String × String)) :
    List.lookup a (p :: rest) =
      if a = p.1 then some p.2 else List.lookup a rest := by
  cases p with
  | mk k v =>
    rw [List.lookup_cons]
    by_cases h : a = k
    · simp [h]
    · simp [h, beq_eq_false_iff_ne.mpr h]

theorem lookup_mapSet_self (m : List (String × String)) (k v : String) :
    (mapSet m k v).lookup k = some v := by
  induction m with
  | nil => simp [mapSet, lookup_cons_pair]
  | cons p rest ih =>
    by_cases h : p.1 = k
    · simp [mapSet, h, lookup_cons_pair]
    · simpa [mapSet, h, lookup_cons_pair, Ne.symm h] using ih

theorem lookup_mapSet_ne (m : List (String × String)) (k v a : String)
    (h : a ≠ k) : (mapSet m k v).lookup a = m.lookup a := by
  induction m with
  | nil => simp [mapSet, lookup_cons_pair, h]
  | cons p rest ih =>
    by_cases hp : p.1 = k
    · subst hp
      simp [mapSet, lookup_cons_pair, h]
    · by_cases ha : a = p.1
      · simp [mapSet, hp, lookup_cons_pair, ha]
      · simpa [mapSet, hp, lookup_cons_pair, ha] using ih

/-- Value of the last pair with key `a`, in list order. -/
def lastValue (a : String) : List (String × String) → Option String
  | [] => none
  | p :: rest =>
    match lastValue a rest with
    | some v => some v
    | none => if p.1 = a then some p.2 else none

theorem lookup_foldl_mapSet (a : String) (ps : List (String × String)) :
    ∀ m : List (String × String),
      (ps.foldl (fun acc p => mapSet acc p.1 p.2) m).lookup a =
        match lastValue a ps with
        | some v => some v
        | none => m.lookup a := by
  induction ps with
  | nil => intro m; rfl
  | cons p rest ih =>
    intro m
    rw [List.foldl_cons, ih (mapSet m p.1 p.2)]
    cases hlv : lastValue a rest with
    | some v => simp [lastValue, hlv]
    | none =>
      by_cases hp : p.1 = a
      · subst hp
        simp [lastValue, hlv, lookup_mapSet_self]
      · simp [lastValue, hlv, hp, lookup_mapSet_ne m p.1 p.2 a (Ne.symm hp)]

theorem countP_eq_of_nodup_keys (uid : String) (m : List (String × String))
    (h : (mapKeys m).Nodup) :
    m.countP (fun p => p.1 == uid) = if uid ∈ mapKeys m then 1 else 0 := by
  induction m with
  | nil => simp
  | cons p rest ih =>
    rw [mapKeys_cons, List.nodup_cons] at h
    by_cases hp : p.1 = uid
    · subst hp
      simp [List.countP_cons, ih h.2, h.1]
    · simp [List.countP_cons, ih h.2, hp, Ne.symm hp]

theorem nodup_keys_foldl (ps : List (String × String)) :
    ∀ m : List (String × String), (mapKeys m).Nodup →
      (mapKeys (ps.foldl (fun acc p => mapSet acc p.1 p.2) m)).Nodup := by
  induction ps with
  | nil => intro m h; exact h
  | cons p rest ih => intro m h; exact ih _ (nodup_mapKeys_mapSet _ _ _ h)

theorem mem_mapKeys_of_lookup (m : List (String × String)) (a v : String)
    (h : m.lookup a = some v) : a ∈ mapKeys m := by
  induction m with
  | nil => simp at h
  | cons p rest ih =>
    rw [lookup_cons_pair] at h
    by_cases ha : a = p.1
    · simp [ha]
    · rw [if_neg ha] at h
      simp [ih h]

theorem mem_snd_of_lookup (m : List (String × String)) (a v : String)
    (h : m.lookup a = some v) : v ∈ m.map Prod.snd := by
  induction m with
  | nil => simp at h
  | cons p rest ih =>
    rw [lookup_cons_pair] at h
    by_cases ha : a = p.1
    · rw [if_pos ha] at h
      simp only [Option.some_inj] at h
      simp [h]
    · rw [if_neg ha] at h
      simp [ih h]

/-- The filtered key/value pairs that survive the skip test, in payload
order: the pairs `(user.id, user.summary)` of the records whose `user` and
`schedule` are present and whose schedule id is not excluded. -/
def keptPairs (skip : List String) (oncalls : List Oncall) :
    List (String × String) :=
  oncalls.filterMap (fun oc =>
    match oc.user, oc.schedule with
    | some u, some s =>
        if skip.contains s.id then none else some (u.id, u.summary)
    | _, _ => none)

theorem foldl_oncallStep_eq (skip : List String) (oncalls : List Oncall) :
    ∀ m : List (String × String),
      oncalls.foldl (oncallStep skip) m =
        (keptPairs skip oncalls).foldl (fun acc p => mapSet acc p.1 p.2) m := by
  induction oncalls with
  | nil => intro m; rfl
  | cons oc rest ih =>
    intro m
    rw [List.foldl_cons]
    cases hu : oc.user with
    | none =>
      have h1 : oncallStep skip m oc = m := by simp [oncallStep, hu]
      have h2 : keptPairs skip (oc :: rest) = keptPairs skip rest := by
        simp [keptPairs, List.filterMap_cons, hu]
      rw [h1, h2, ih]
    | some u =>
      cases hs : oc.schedule with
      | none =>
        have h1 : oncallStep skip m oc = m := by simp [oncallStep, hu, hs]
        have h2 : keptPairs skip (oc :: rest) = keptPairs skip rest := by
          simp [keptPairs, List.filterMap_cons, hu, hs]
        rw [h1, h2, ih]
      | some s =>
        by_cases hc : s.id ∈ skip
        · have h1 : oncallStep skip m oc = m := by simp [oncallStep, hu, hs, hc]
          have h2 : keptPairs skip (oc :: rest) = keptPairs skip rest := by
            simp [keptPairs, List.filterMap_cons, hu, hs, hc]
          rw [h1, h2, ih]
        · have h1 : oncallStep skip m oc = mapSet m u.id u.summary := by
            simp [oncallStep, hu, hs, hc]
          have h2 : keptPairs skip (oc :: rest) =
              (u.id, u.summary) :: keptPairs skip rest := by
            simp [keptPairs, List.filterMap_cons, hu, hs, hc]
          rw [h1, h2, List.foldl_cons, ih]

/-! ## Claim C1 -/

/-- C1: an on-call record whose schedule id is in the exclusion set
contributes nothing to the result of `getOnCallUsers` (removing it from the
payload leaves the result unchanged); yet a user named by both an
excluded-schedule record and a non-excluded-schedule record still appears in
the result — filtering happens per record, before deduplication. -/
theorem c1_excluded_record_contributes_nothing (skip : List String)
    (l1 l2 : List Oncall) (oc : Oncall) (s : OncallSchedule)
    (hs : oc.schedule = some s) (hmem : s.id ∈ skip) :
    onCallUsersOf skip (l1 ++ oc :: l2) = onCallUsersOf skip (l1 ++ l2) ∧
    onCallUsersOf ["S1"]
      [ { user := some { id := "U1", summary := "Alice" },
          schedule := some { id := "S1" } },
        { user := some { id := "U1", summary := "Alice" },
          schedule := some { id := "S2" } } ] = ["Alice"] := by
  constructor
  · unfold onCallUsersOf
    rw [List.foldl_append, List.foldl_append, List.foldl_cons]
    have hstep : oncallStep skip (l1.foldl (oncallStep skip) []) oc
        = l1.foldl (oncallStep skip) [] := by
      cases hu : oc.user <;> simp [oncallStep, hu, hs, hmem]
    rw [hstep]
  · decide

/-- Witness for C1 at the spec's own scenario: skip = `["S1"]`, the excluded
record `("U1", "Alice", "S1")` sits in front of the kept record
`("U1", "Alice", "S2")`. -/
theorem c1_excluded_record_contributes_nothing_witness :
    ((⟨some ⟨"U1", "Alice"⟩, some ⟨"S1"⟩⟩ : Oncall).schedule =
        some ⟨"S1"⟩ ∧ ("S1" : String) ∈ ["S1"]) ∧
    (onCallUsersOf ["S1"]
        ([] ++ (⟨some ⟨"U1", "Alice"⟩, some ⟨"S1"⟩⟩ : Oncall) ::
          [⟨some ⟨"U1", "Alice"⟩, some ⟨"S2"⟩⟩]) =
      onCallUsersOf ["S1"] ([] ++ [⟨some ⟨"U1", "Alice"⟩, some ⟨"S2"⟩⟩]) ∧
     onCallUsersOf ["S1"]
      [ { user := some { id := "U1", summary := "Alice" },
          schedule := some { id := "S1" } },
        { user := some { id := "U1", summary := "Alice" },
          schedule := some { id := "S2" } } ] = ["Alice"]) :=
  ⟨⟨rfl, by decide⟩,
    c1_excluded_record_contributes_nothing ["S1"] []
      [⟨some ⟨"U1", "Alice"⟩, some ⟨"S2"⟩⟩]
      ⟨some ⟨"U1", "Alice"⟩, some ⟨"S1"⟩⟩ ⟨"S1"⟩ rfl (by decide)⟩

/-! ## Claim C2 -/

/-- C2: among non-skipped records sharing the same user id, the `uniqueUsers`
map ends up with exactly one entry keyed by that id, its display name is the
one of the last such record in payload order, and that name is in the result
of `getOnCallUsers` (JS `Map.set` overwrite semantics). -/
theorem c2_dedup_keeps_last_display_name (skip : List String)
    (oncalls : List Oncall) (uid name : String)
    (h : lastValue uid (keptPairs skip oncalls) = some name) :
    (oncalls.foldl (oncallStep skip) []).countP (fun p => p.1 == uid) = 1 ∧
    (oncalls.foldl (oncallStep skip) []).lookup uid = some name ∧
    name ∈ onCallUsersOf skip oncalls := by
  have hlk : (oncalls.foldl (oncallStep skip) []).lookup uid = some name := by
    rw [foldl_oncallStep_eq, lookup_foldl_mapSet, h]
  refine ⟨?_, hlk, ?_⟩
  · have hnd : (mapKeys (oncalls.foldl (oncallStep skip) [])).Nodup := by
      rw [foldl_oncallStep_eq]
      exact nodup_keys_foldl _ _ (by simp)
    rw [countP_eq_of_nodup_keys _ _ hnd,
      if_pos (mem_mapKeys_of_lookup _ _ _ hlk)]
  · unfold onCallUsersOf
    exact mem_snd_of_lookup _ _ _ hlk

/-- Witness for C2: two kept records for user `U1` with display names
`Alice A` then `Alice B`; the map keeps one entry with `Alice B`. -/
theorem c2_dedup_keeps_last_display_name_witness :
    lastValue "U1"
      (keptPairs [] [⟨some ⟨"U1", "Alice A"⟩, some ⟨"S1"⟩⟩,
        ⟨some ⟨"U1", "Alice B"⟩, some ⟨"S2"⟩⟩]) = some "Alice B" ∧
    (([⟨some ⟨"U1", "Alice A"⟩, some ⟨"S1"⟩⟩,
        (⟨some ⟨"U1", "Alice B"⟩, some ⟨"S2"⟩⟩ : Oncall)].foldl
          (oncallStep []) []).countP (fun p => p.1 == "U1") = 1 ∧
      ([⟨some ⟨"U1", "Alice A"⟩, some ⟨"S1"⟩⟩,
        (⟨some ⟨"U1", "Alice B"⟩, some ⟨"S2"⟩⟩ : Oncall)].foldl
          (oncallStep []) []).lookup "U1" = some "Alice B" ∧
      "Alice B" ∈ onCallUsersOf []
        [⟨some ⟨"U1", "Alice A"⟩, some ⟨"S1"⟩⟩,
          ⟨some ⟨"U1", "Alice B"⟩, some ⟨"S2"⟩⟩]) :=
  ⟨by decide,
    c2_dedup_keeps_last_display_name []
      [⟨some ⟨"U1", "Alice A"⟩, some ⟨"S1"⟩⟩,
        ⟨some ⟨"U1", "Alice B"⟩, some ⟨"S2"⟩⟩] "U1" "Alice B" (by decide)⟩

/-! ## Claims C3 and C4 -/

theorem find?_append_cons_of_not_found {α : Type} (p : α → Bool)
    (l1 : List α) (x : α) (l2 : List α)
    (h1 : ∀ a ∈ l1, p a = false) (hx : p x = true) :
    (l1 ++ x :: l2).find? p = some x := by
  induction l1 with
  | nil => simp [List.find?_cons, hx]
  | cons a rest ih =>
    have ha : p a = false := h1 a (by simp)
    rw [List.cons_append, List.find?_cons, ha]
    exact ih (fun b hb => h1 b (by simp [hb]))

/-- A fixed configuration for concrete witnesses (`config.json` values). -/
def cfgFix : Config :=
  { pagerdutyApiToken := "pd-token", slackApiToken := "slack-token",
    slackGroupId := "G1", slackChannelId := "CHAN", skipSchedules := ["S1"] }

/-- C3: `getSlackUserIdByName` returns the id of the first directory entry
(in directory order) whose `real_name`, `name`, or `profile.real_name`
equals the input by exact string equality, and `none` when no entry
matches. -/
theorem c3_first_exact_match_wins (w : World) (name : String)
    (r : UsersListBody) (hw : w.usersListResp = HttpResult.success r)
    (hok : r.ok = true) :
    (∀ pre x post, r.members = pre ++ x :: post →
        (∀ m ∈ pre, memberMatches name m = false) →
        memberMatches name x = true →
        getSlackUserIdByName w name = some x.id) ∧
    ((∀ m ∈ r.members, memberMatches name m = false) →
        getSlackUserIdByName w name = none) := by
  have hbody : getSlackUserIdByName w name
      = (r.members.find? (memberMatches name)).map Member.id := by
    unfold getSlackUserIdByName getSlackUserIdByNameBody
    rw [hw]
    simp [hok]
  constructor
  · intro pre x post hsplit hpre hx
    rw [hbody, hsplit, find?_append_cons_of_not_found _ _ _ _ hpre hx]
    rfl
  · intro hnone
    have hfind : r.members.find? (memberMatches name) = none :=
      List.find?_eq_none.mpr (fun m hm => by simp [hnone m hm])
    rw [hbody, hfind]
    rfl

/-- Directory listing used by the C3 witness: `Bob` first, `Alice` second. -/
def usersListFixC3 : UsersListBody :=
  { ok := true, error := "",
    members := [⟨"UBOB", "bob", "Bob", ⟨"Bobby"⟩⟩,
                ⟨"UALICE", "alice", "Alice", ⟨"Alice A"⟩⟩] }

/-- World used by the C3 witness. -/
def worldFixC3 : World :=
  { oncallsResp := HttpResult.failure "unused",
    usergroupsListResp := HttpResult.failure "unused",
    usersInfoResp := fun _ => HttpResult.failure "unused",
    usersListResp := HttpResult.success usersListFixC3,
    updateResp := HttpResult.failure "unused",
    postMessageResp := HttpResult.failure "unused" }

/-- Witness for C3: `Alice` matches the second entry (`real_name`), the
first entry does not match, so the second entry's id is returned. -/
theorem c3_first_exact_match_wins_witness :
    worldFixC3.usersListResp = HttpResult.success usersListFixC3 ∧
    usersListFixC3.ok = true ∧
    getSlackUserIdByName worldFixC3 "Alice" = some "UALICE" :=
  ⟨rfl, rfl,
    (c3_first_exact_match_wins worldFixC3 "Alice" usersListFixC3 rfl rfl).1
      [⟨"UBOB", "bob", "Bob", ⟨"Bobby"⟩⟩] ⟨"UALICE", "alice", "Alice", ⟨"Alice A"⟩⟩
      [] rfl (by decide) (by decide)⟩

/-- C4: when the directory-listing call fails (thrown `axios` error) or
returns a response with a false `ok` flag, `getSlackUserIdByName` does not
propagate an error: it returns the absence signal `none`; the membership
update step then runs to completion without an error (with every lookup
missing, it skips the update). -/
theorem c4_directory_failure_absorbed (cfg : Config) (w : World)
    (users : List String) (name : String)
    (h : (∃ msg, w.usersListResp = HttpResult.failure msg) ∨
      (∃ r, w.usersListResp = HttpResult.success r ∧ r.ok = false)) :
    getSlackUserIdByName w name = none ∧
    (updateGroupMembers cfg w users).2 = Except.ok () := by
  have hall : ∀ n : String, getSlackUserIdByName w n = none := by
    intro n
    unfold getSlackUserIdByName getSlackUserIdByNameBody
    rcases h with ⟨msg, hm⟩ | ⟨r, hr, hok⟩
    · rw [hm]
    · rw [hr]
      simp [hok]
  have hnil : users.filterMap (fun user => getSlackUserIdByName w user) = [] := by
    simp [hall]
  refine ⟨hall name, ?_⟩
  unfold updateGroupMembers
  simp [hnil]

/-- World used by the C4 witness: the directory listing answers
`{ok: false, error: "not_authed"}`. -/
def worldFixC4 : World :=
  { oncallsResp := HttpResult.failure "unused",
    usergroupsListResp := HttpResult.failure "unused",
    usersInfoResp := fun _ => HttpResult.failure "unused",
    usersListResp := HttpResult.success
      ({ ok := false, error := "not_authed", members := [] }),
    updateResp := HttpResult.failure "unused",
    postMessageResp := HttpResult.failure "unused" }

/-- Witness for C4 at the spec's scenario response `{ok:false,
error:"not_authed"}`. -/
theorem c4_directory_failure_absorbed_witness :
    ((∃ msg, worldFixC4.usersListResp = HttpResult.failure msg) ∨
      (∃ r, worldFixC4.usersListResp = HttpResult.success r ∧ r.ok = false)) ∧
    (getSlackUserIdByName worldFixC4 "Alice" = none ∧
      (updateGroupMembers cfgFix worldFixC4 ["Alice"]).2 = Except.ok ()) :=
  ⟨Or.inr ⟨{ ok := false, error := "not_authed", members := [] }, rfl, rfl⟩,
    c4_directory_failure_absorbed cfgFix worldFixC4 ["Alice"] "Alice"
      (Or.inr ⟨{ ok := false, error := "not_authed", members := [] }, rfl, rfl⟩)⟩

/-! ## Claim C5 -/

/-- C5: `updateGroupMembers` issues the group-overwrite call iff at least
one input name resolves to a directory id, and when issued the call carries
exactly the resolved ids (in input order, joined by `,`) — unresolved names
are silently dropped; with zero resolved ids the update endpoint is never
contacted. -/
theorem c5_overwrite_iff_some_resolved (cfg : Config) (w : World)
    (users : List String) :
    (updateGroupMembers cfg w users).1 =
      if users.filterMap (fun user => getSlackUserIdByName w user) = [] then []
      else [Call.groupUpdate cfg.slackGroupId (String.intercalate ","
        (users.filterMap (fun user => getSlackUserIdByName w user)))] := by
  unfold updateGroupMembers
  by_cases h : users.filterMap (fun user => getSlackUserIdByName w user) = []
  · simp [h]
  · have hne : (users.filterMap
        (fun user => getSlackUserIdByName w user)).isEmpty = false := by
      simpa [List.isEmpty_iff] using h
    cases hr : w.updateResp <;> simp [h, hne, hr]

/-! ## Claim C6 -/

/-- C6: when the on-call query yields zero usable records, the orchestrator
stops normally: no notification is posted, no group-update call is made, and
nothing is logged as an error. -/
theorem c6_zero_users_stops (cfg : Config) (w : World)
    (h : getOnCallUsers cfg w = Except.ok []) :
    updateSlackGroup cfg w = { calls := [], loggedError := none } := by
  unfold updateSlackGroup
  rw [h]
  simp

/-- World used by the C6 witness: the provider answers with an empty
`oncalls` array. -/
def worldFixC6 : World :=
  { oncallsResp := HttpResult.success ({ oncalls := some [] }),
    usergroupsListResp := HttpResult.failure "unused",
    usersInfoResp := fun _ => HttpResult.failure "unused",
    usersListResp := HttpResult.failure "unused",
    updateResp := HttpResult.failure "unused",
    postMessageResp := HttpResult.failure "unused" }

/-- Witness for C6: an empty on-call payload produces an empty run. -/
theorem c6_zero_users_stops_witness :
    getOnCallUsers cfgFix worldFixC6 = Except.ok [] ∧
    updateSlackGroup cfgFix worldFixC6 = { calls := [], loggedError := none } :=
  ⟨rfl, c6_zero_users_stops cfgFix worldFixC6 rfl⟩

/-! ## Claim C10 -/

/-- C10: a successful on-call response whose body lacks the `oncalls` field
(or has it null) is treated as an empty record list: `getOnCallUsers`
returns `ok []` rather than failing, and the run ends via the normal
zero-users path (no calls, no logged error). -/
theorem c10_missing_oncalls_is_empty (cfg : Config) (w : World)
    (body : OncallsBody) (hw : w.oncallsResp = HttpResult.success body)
    (hb : body.oncalls = none) :
    getOnCallUsers cfg w = Except.ok [] ∧
    updateSlackGroup cfg w = { calls := [], loggedError := none } := by
  have h1 : getOnCallUsers cfg w = Except.ok [] := by
    unfold getOnCallUsers
    rw [hw]
    simp [hb, onCallUsersOf]
  refine ⟨h1, ?_⟩
  unfold updateSlackGroup
  rw [h1]
  simp

/-- World used by the C10 witness: a 2xx provider response with no
`oncalls` field. -/
def worldFixC10 : World :=
  { oncallsResp := HttpResult.success ({ oncalls := none }),
    usergroupsListResp := HttpResult.failure "unused",
    usersInfoResp := fun _ => HttpResult.failure "unused",
    usersListResp := HttpResult.failure "unused",
    updateResp := HttpResult.failure "unused",
    postMessageResp := HttpResult.failure "unused" }

/-- Witness for C10. -/
theorem c10_missing_oncalls_is_empty_witness :
    worldFixC10.oncallsResp = HttpResult.success ({ oncalls := none }) ∧
    (getOnCallUsers cfgFix worldFixC10 = Except.ok [] ∧
      updateSlackGroup cfgFix worldFixC10 =
        { calls := [], loggedError := none }) :=
  ⟨rfl, c10_missing_oncalls_is_empty cfgFix worldFixC10 { oncalls := none } rfl rfl⟩

/-! ## Claim C9 -/

/-- C9: every error propagated out of the on-call lookup, the notification
post, or the membership update is caught and logged by `updateSlackGroup`
(its outcome records the logged message; nothing is rethrown).  In
particular, when the on-call lookup fails, no message is posted and no
update call is made, and the logged error wraps the lookup's message. -/
theorem c9_orchestrator_catches_and_logs :
    (∀ cfg w msg, w.oncallsResp = HttpResult.failure msg →
      updateSlackGroup cfg w =
        { calls := [],
          loggedError := some ("Failed to update Slack group: "
            ++ ("Failed to get on-call users: " ++ msg)) }) ∧
    (∀ cfg w msg users, w.postMessageResp = HttpResult.failure msg →
      getOnCallUsers cfg w = Except.ok users → users ≠ [] →
      updateSlackGroup cfg w =
        { calls := [Call.postMessage cfg.slackChannelId (messageText users)],
          loggedError := some ("Failed to update Slack group: " ++ msg) }) ∧
    (∀ cfg w msg users env, w.updateResp = HttpResult.failure msg →
      getOnCallUsers cfg w = Except.ok users → users ≠ [] →
      w.postMessageResp = HttpResult.success env →
      users.filterMap (fun user => getSlackUserIdByName w user) ≠ [] →
      (updateSlackGroup cfg w).loggedError =
        some ("Failed to update Slack group: "
          ++ ("Failed to update group members: " ++ msg))) := by
  refine ⟨?_, ?_, ?_⟩
  · intro cfg w msg h
    unfold updateSlackGroup getOnCallUsers
    rw [h]
  · intro cfg w msg users hpm hoc hne
    unfold updateSlackGroup
    rw [hoc, hpm]
    simp [List.length_pos.mpr hne]
  · intro cfg w msg users env hup hoc hne hpm hids
    have hemp : (users.filterMap
        (fun user => getSlackUserIdByName w user)).isEmpty = false := by
      simpa [List.isEmpty_iff] using hids
    unfold updateSlackGroup
    rw [hoc, hpm]
    unfold updateGroupMembers
    simp [List.length_pos.mpr hne, hemp, hup]

/-- World used by the C9 witness: the on-call provider call throws (e.g.
an HTTP 500 surfaced by `axios`). -/
def worldFixC9 : World :=
  { oncallsResp := HttpResult.failure "Request failed with status code 500",
    usergroupsListResp := HttpResult.failure "unused",
    usersInfoResp := fun _ => HttpResult.failure "unused",
    usersListResp := HttpResult.failure "unused",
    updateResp := HttpResult.failure "unused",
    postMessageResp := HttpResult.failure "unused" }

/-- Witness for C9 at the spec's HTTP-500 scenario: the run posts nothing,
updates nothing, and logs the doubly wrapped message. -/
theorem c9_orchestrator_catches_and_logs_witness :
    worldFixC9.oncallsResp =
      HttpResult.failure "Request failed with status code 500" ∧
    updateSlackGroup cfgFix worldFixC9 =
      { calls := [],
        loggedError := some ("Failed to update Slack group: "
          ++ ("Failed to get on-call users: "
            ++ "Request failed with status code 500")) } :=
  ⟨rfl, c9_orchestrator_catches_and_logs.1 cfgFix worldFixC9
    "Request failed with status code 500" rfl⟩

/-! ## Claim C7 (corrected) -/

/-- World for the C7 counterexample: the step-1 membership fetch throws
(`boom`), while name resolution and the overwrite call succeed. -/
def worldFixC7 : World :=
  { oncallsResp := HttpResult.failure "unused",
    usergroupsListResp := HttpResult.failure "boom",
    usersInfoResp := fun _ => HttpResult.failure "unused",
    usersListResp := HttpResult.success
      ({ ok := true, error := "",
         members := [⟨"UALICE", "alice", "Alice", ⟨"Alice A"⟩⟩] }),
    updateResp := HttpResult.success ({ ok := true, error := "" }),
    postMessageResp := HttpResult.failure "unused" }

/-- Counterexample to C7 as stated: the step-1 call (current-membership
fetch) fails, yet `updateGroupMembers` does not abort with an error — it
completes normally and still issues the overwrite call. -/
theorem c7_counterexample_step1_not_fatal :
    worldFixC7.usergroupsListResp = HttpResult.failure "boom" ∧
    (updateGroupMembers cfgFix worldFixC7 ["Alice"]).2 = Except.ok () ∧
    (updateGroupMembers cfgFix worldFixC7 ["Alice"]).1 =
      [Call.groupUpdate "G1" "UALICE"] :=
  ⟨rfl, rfl, rfl⟩

/-- C7 (amended): only a call failure in step 4 (the overwrite call)
surfaces as a fatal error for the component, aborting it with the wrapped
message; a call failure in step 1 (the current-membership fetch) is caught
inside `getCurrentGroupMembers` (which reports an empty snapshot) and a call
failure in step 2 (name resolution) is caught inside `getSlackUserIdByName`
(which reports absence), so neither aborts the component. -/
theorem c7_amended_only_step4_fatal :
    (∀ cfg w users msg, w.updateResp = HttpResult.failure msg →
      users.filterMap (fun user => getSlackUserIdByName w user) ≠ [] →
      (updateGroupMembers cfg w users).2 =
        Except.error ("Failed to update group members: " ++ msg)) ∧
    (∀ w msg, w.usergroupsListResp = HttpResult.failure msg →
      getCurrentGroupMembers w = []) ∧
    (∀ cfg w users msg env, w.usergroupsListResp = HttpResult.failure msg →
      w.updateResp = HttpResult.success env →
      (updateGroupMembers cfg w users).2 = Except.ok ()) ∧
    (∀ cfg w users msg, w.usersListResp = HttpResult.failure msg →
      (updateGroupMembers cfg w users).2 = Except.ok ()) := by
  refine ⟨?_, ?_, ?_, ?_⟩
  · intro cfg w users msg hup hids
    have hemp : (users.filterMap
        (fun user => getSlackUserIdByName w user)).isEmpty = false := by
      simpa [List.isEmpty_iff] using hids
    unfold updateGroupMembers
    simp [hemp, hup]
  · intro w msg h
    unfold getCurrentGroupMembers getCurrentGroupMembersBody
    rw [h]
  · intro cfg w users msg env _ hup
    unfold updateGroupMembers
    by_cases hemp : (users.filterMap
        (fun user => getSlackUserIdByName w user)).isEmpty
    · simp [hemp]
    · simp [hemp, hup]
  · intro cfg w users msg h
    have hall : ∀ n : String, getSlackUserIdByName w n = none := by
      intro n
      unfold getSlackUserIdByName getSlackUserIdByNameBody
      rw [h]
    have hnil : users.filterMap
        (fun user => getSlackUserIdByName w user) = [] := by
      simp [hall]
    unfold updateGroupMembers
    simp [hnil]

/-- World for the C7 witness: the overwrite call itself throws
(`netdown`) while name resolution succeeds. -/
def worldFixC7b : World :=
  { oncallsResp := HttpResult.failure "unused",
    usergroupsListResp := HttpResult.failure "unused",
    usersInfoResp := fun _ => HttpResult.failure "unused",
    usersListResp := HttpResult.success
      ({ ok := true, error := "",
         members := [⟨"UALICE", "alice", "Alice", ⟨"Alice A"⟩⟩] }),
    updateResp := HttpResult.failure "netdown",
    postMessageResp := HttpResult.failure "unused" }

/-- Witness for the amended C7: a step-4 failure aborts the component with
the wrapped message. -/
theorem c7_amended_only_step4_fatal_witness :
    worldFixC7b.updateResp = HttpResult.failure "netdown" ∧
    ["Alice"].filterMap
      (fun user => getSlackUserIdByName worldFixC7b user) ≠ [] ∧
    (updateGroupMembers cfgFix worldFixC7b ["Alice"]).2 =
      Except.error ("Failed to update group members: " ++ "netdown") :=
  ⟨rfl, by decide,
    c7_amended_only_step4_fatal.1 cfgFix worldFixC7b ["Alice"] "netdown"
      rfl (by decide)⟩

/-! ## Claim C8 (corrected) -/

/-- World for the C8 counterexample: every call returns 2xx, but both the
`chat.postMessage` and `usergroups.users.update` responses carry a false
`ok` flag with an error field. -/
def worldFixC8 : World :=
  { oncallsResp := HttpResult.success
      ({ oncalls := some [⟨some ⟨"U1", "Alice"⟩, some ⟨"S2"⟩⟩] }),
    usergroupsListResp := HttpResult.success
      ({ ok := true, error := "", users := some [] }),
    usersInfoResp := fun _ => HttpResult.failure "unused",
    usersListResp := HttpResult.success
      ({ ok := true, error := "",
         members := [⟨"UALICE", "alice", "Alice", ⟨"Alice A"⟩⟩] }),
    updateResp := HttpResult.success ({ ok := false, error := "invalid_users" }),
    postMessageResp := HttpResult.success ({ ok := false, error := "not_authed" }) }

/-- Counterexample to C8 as stated: the message-posting and group-update
responses have `ok:false` with error fields, yet the run surfaces no failure
at all — it issues both calls and logs nothing (their success flags are
never checked). -/
theorem c8_counterexample_flags_unchecked :
    worldFixC8.postMessageResp =
      HttpResult.success ({ ok := false, error := "not_authed" }) ∧
    worldFixC8.updateResp =
      HttpResult.success ({ ok := false, error := "invalid_users" }) ∧
    updateSlackGroup cfgFix worldFixC8 =
      { calls := [Call.postMessage "CHAN" (messageText ["Alice"]),
          Call.groupUpdate "G1" "UALICE"],
        loggedError := none } :=
  ⟨rfl, rfl, rfl⟩

/-- C8 (amended): the success flag is checked and a false flag surfaced as a
failure carrying the error field only for the group listing
(`usergroups.users.list`) and the user listing (`users.list`); the user-info
(`users.info`) flag is checked but a false flag merely skips that member
without surfacing the error; the group-update and message-posting flags are
not checked at all — the run is insensitive to those response bodies. -/
theorem c8_amended_partial_flag_checking :
    (∀ w r, w.usergroupsListResp = HttpResult.success r → r.ok = false →
      getCurrentGroupMembersBody w =
        Except.error ("Failed to get group members: " ++ r.error)) ∧
    (∀ w name r, w.usersListResp = HttpResult.success r → r.ok = false →
      getSlackUserIdByNameBody w name =
        Except.error ("Failed to list users: " ++ r.error)) ∧
    (∀ w uid rest ur, w.usersInfoResp uid = HttpResult.success ur →
      ur.ok = false → collectNames w (uid :: rest) = collectNames w rest) ∧
    (∀ (cfg : Config) (w : World) (e1 e2 : SlackEnvelope),
      updateSlackGroup cfg
        { w with updateResp := HttpResult.success e1,
                 postMessageResp := HttpResult.success e2 } =
      updateSlackGroup cfg
        { w with updateResp := HttpResult.success ({ ok := true, error := "" }),
                 postMessageResp :=
                   HttpResult.success ({ ok := true, error := "" }) }) := by
  refine ⟨?_, ?_, ?_, ?_⟩
  · intro w r hw hok
    unfold getCurrentGroupMembersBody
    rw [hw]
    simp [hok]
  · intro w name r hw hok
    unfold getSlackUserIdByNameBody
    rw [hw]
    simp [hok]
  · intro w uid rest ur hresp hok
    rw [collectNames, hresp]
    cases h : collectNames w rest <;> simp [h, hok]
  · intro cfg w e1 e2
    rfl

/-- World for the C8 witness: the group listing answers
`{ok:false, error:"no_such_subteam"}`. -/
def worldFixC8b : World :=
  { oncallsResp := HttpResult.failure "unused",
    usergroupsListResp := HttpResult.success
      ({ ok := false, error := "no_such_subteam", users := some [] }),
    usersInfoResp := fun _ => HttpResult.failure "unused",
    usersListResp := HttpResult.failure "unused",
    updateResp := HttpResult.failure "unused",
    postMessageResp := HttpResult.failure "unused" }

/-- Witness for the amended C8: the group-listing flag is surfaced as a
failure carrying the error field. -/
theorem c8_amended_partial_flag_checking_witness :
    worldFixC8b.usergroupsListResp = HttpResult.success
      ({ ok := false, error := "no_such_subteam", users := some [] }) ∧
    (false : Bool) = false ∧
    getCurrentGroupMembersBody worldFixC8b =
      Except.error ("Failed to get group members: " ++ "no_such_subteam") :=
  ⟨rfl, rfl,
    c8_amended_partial_flag_checking.1 worldFixC8b
      ({ ok := false, error := "no_such_subteam", users := some [] }) rfl rfl⟩
